import Mathlib

/-!
Verification development for the `wqu-weather-app` repository
(`weather_app/utils.py` and `weather_app/__init__.py`).

The Python code is shallowly embedded as executable Lean definitions:

* JSON / Python numbers are modelled exactly as scaled decimal integers
  (`DecNum`, value `m / 10 ^ e`).  The upstream weather service sends plain
  decimal literals, which Python renders back (`str` / f-string) in the same
  decimal form; `decRepr` embeds that rendering and `parseRat` embeds
  `float()` on such decimal literals.  Arithmetic is exact rational
  arithmetic; on the one-decimal-place temperatures this app consumes it
  agrees with CPython double arithmetic at every rounding decision made by
  the code (no value lands close enough to a tie for the binary
  representation error to matter, and exact ties such as `X.5` are
  represented exactly by doubles, where `%.0f` rounds half to even exactly
  as `fmt0f` below does).
* Fallible Python operations (missing dict key, `tz_convert` on a naive
  index, indexing an empty list, `float()` on a malformed string) return
  `Except AppError`.
* `pandas` operations used by the code are embedded by their documented
  semantics: `pd.to_datetime` on a list of `...Z` ISO timestamps yields a
  timezone-aware (UTC) index when the list is non-empty and a timezone-naive
  empty index when it is empty; `tz_convert` keeps the underlying instants
  and relabels the timezone, raising a `TypeError` on a naive index;
  `resample("1D").agg(["max","min"])` buckets an (ascending) datetime index
  into calendar days and reduces each bucket to its max and min.
-/

namespace WeatherApp

/-! ### Decimal digits machinery -/

/-- Character for a decimal digit `k < 10`. -/
def charOfDigit (k : Nat) : Char := Char.ofNat (48 + k)

/-- Numeric value of a decimal digit character. -/
def digitOfChar (c : Char) : Nat := c.toNat - 48

/-- Is `c` one of the characters `0`–`9`? -/
def isDigitCh (c : Char) : Bool := 48 ≤ c.toNat && c.toNat ≤ 57

/-- Base-10 digits of `n`, least significant first, using explicit fuel so
that the definition is structurally recursive (and kernel-reducible). -/
def digitsRecAux : Nat → Nat → List Nat
  | 0, _ => []
  | _ + 1, 0 => []
  | fuel + 1, n + 1 => (n + 1) % 10 :: digitsRecAux fuel ((n + 1) / 10)

/-- Base-10 digits of `n`, least significant first (empty for `0`). -/
def natDecDigits (n : Nat) : List Nat := digitsRecAux n n

theorem digitsRecAux_ofDigits :
    ∀ fuel n, n ≤ fuel → Nat.ofDigits 10 (digitsRecAux fuel n) = n := by
  intro fuel
  induction fuel with
  | zero =>
    intro n hn
    interval_cases n
    simp [digitsRecAux]
  | succ fuel ih =>
    intro n hn
    cases n with
    | zero => simp [digitsRecAux]
    | succ m =>
      have hdiv : (m + 1) / 10 ≤ fuel := by
        have := Nat.div_le_self (m + 1) 10
        have h10 : (m + 1) / 10 < m + 1 := Nat.div_lt_self (Nat.succ_pos m) (by omega)
        omega
      have := ih ((m + 1) / 10) hdiv
      simp only [digitsRecAux, Nat.ofDigits_cons, this]
      omega

theorem natDecDigits_ofDigits (n : Nat) : Nat.ofDigits 10 (natDecDigits n) = n :=
  digitsRecAux_ofDigits n n (Nat.le_refl n)

theorem digitsRecAux_lt :
    ∀ fuel n d, d ∈ digitsRecAux fuel n → d < 10 := by
  intro fuel
  induction fuel with
  | zero => intro n d h; simp [digitsRecAux] at h
  | succ fuel ih =>
    intro n d h
    cases n with
    | zero => simp [digitsRecAux] at h
    | succ m =>
      simp only [digitsRecAux, List.mem_cons] at h
      rcases h with h | h
      · subst h; exact Nat.mod_lt _ (by omega)
      · exact ih _ _ h

theorem natDecDigits_lt (n d : Nat) (h : d ∈ natDecDigits n) : d < 10 :=
  digitsRecAux_lt n n d h

theorem ofDigits_replicate_zero (k : Nat) :
    Nat.ofDigits 10 (List.replicate k 0) = 0 := by
  induction k with
  | zero => simp [Nat.ofDigits_nil]
  | succ k ih => simp [List.replicate_succ, Nat.ofDigits_cons, ih]

/-! ### Digit-character lemmas -/

theorem charOfDigit_toNat {k : Nat} (h : k < 10) : (charOfDigit k).toNat = 48 + k := by
  interval_cases k <;> decide

theorem digitOfChar_charOfDigit {k : Nat} (h : k < 10) :
    digitOfChar (charOfDigit k) = k := by
  interval_cases k <;> decide

theorem isDigitCh_charOfDigit {k : Nat} (h : k < 10) :
    isDigitCh (charOfDigit k) = true := by
  interval_cases k <;> decide

theorem charOfDigit_ne_dot {k : Nat} (h : k < 10) :
    (charOfDigit k != '.') = true := by
  interval_cases k <;> decide

theorem charOfDigit_head_ne_dash {k : Nat} (h : k < 10) :
    charOfDigit k ≠ '-' := by
  interval_cases k <;> decide

theorem charOfDigit_not_deg_c {k : Nat} (h : k < 10) :
    (("°C" : String).data.contains (charOfDigit k)) = false := by
  interval_cases k <;> decide

/-! ### Python / JSON decimal numbers

A number appearing in the upstream JSON (and hence in the Python program)
is a plain decimal literal; we model it exactly as a scaled integer. -/

/-- A decimal number `m / 10 ^ e`.  `e = 0` models a Python `int` (rendered
without a decimal point); `e > 0` models a `float` rendered with exactly `e`
digits after the point, as CPython renders a float parsed from such a
literal. -/
structure DecNum where
  m : Int
  e : Nat
deriving DecidableEq

/-- Exact rational value of a `DecNum`. -/
def DecNum.val (d : DecNum) : Rat := (d.m : Rat) / (10 : Rat) ^ d.e

/-- The decimal digits of `d.m.natAbs`, least significant first, zero-padded
to length at least `d.e + 1`. -/
def DecNum.padded (d : DecNum) : List Nat :=
  natDecDigits d.m.natAbs ++
    List.replicate (d.e + 1 - (natDecDigits d.m.natAbs).length) 0

/-- The digit characters of `decRepr` without the sign: integer digits,
then (when `d.e ≠ 0`) a decimal point and `d.e` fractional digits. -/
def decReprCore (d : DecNum) : List Char :=
  if d.e = 0 then (d.padded.drop d.e).reverse.map charOfDigit
  else ((d.padded.drop d.e).reverse.map charOfDigit)
    ++ '.' :: ((d.padded.take d.e).reverse.map charOfDigit)

/-- Embedding of Python `str` on the numbers this app handles: the decimal
rendering of a `DecNum`, e.g. `"14.6"`, `"0.5"`, `"-3.0"`, `"1013"`. -/
def decRepr (d : DecNum) : String :=
  String.mk (if d.m < 0 then '-' :: decReprCore d else decReprCore d)

/-- `Nat.ofDigits` on the digit characters of a decimal string, most
significant digit first (the way digits occur in the rendered string). -/
def parseNatDigits (cs : List Char) : Nat :=
  Nat.ofDigits 10 ((cs.map digitOfChar).reverse)

/-- Sign application used by `parseRat`. -/
def ratSign (neg : Bool) (q : Rat) : Rat := if neg then -q else q

/-- Body of `parseRat` once an optional leading minus sign is removed:
digits before an optional single decimal point, digits after it. -/
def parseRatBody (neg : Bool) (body : List Char) : Option Rat :=
  if (body.takeWhile (fun c => c != '.')).all isDigitCh
      && ((body.dropWhile (fun c => c != '.')).tail).all isDigitCh
      && !((body.takeWhile (fun c => c != '.')).isEmpty
            && ((body.dropWhile (fun c => c != '.')).tail).isEmpty) then
    some (ratSign neg
      ((parseNatDigits (body.takeWhile (fun c => c != '.')) : Rat)
        + (parseNatDigits ((body.dropWhile (fun c => c != '.')).tail) : Rat)
          / (10 : Rat) ^ ((body.dropWhile (fun c => c != '.')).tail).length))
  else none

/-- Embedding of Python `float()` on the strings this app feeds it: an
optional minus sign, decimal digits, an optional single decimal point.
Returns `none` (Python `ValueError`) on anything else. -/
def parseRat (s : String) : Option Rat :=
  if s.data.head? = some '-' then parseRatBody true s.data.tail
  else parseRatBody false s.data

/-- Embedding of Python `str.rstrip(chars)`: remove trailing characters that
belong to `chars` (as a set). -/
def pyRstrip (s : String) (chars : String) : String :=
  String.mk ((s.data.reverse.dropWhile (fun c => chars.data.contains c)).reverse)

/-! ### takeWhile / dropWhile helpers -/

theorem takeWhile_of_all {α : Type} {p : α → Bool} :
    ∀ {l : List α}, (∀ a ∈ l, p a = true) → l.takeWhile p = l
  | [], _ => rfl
  | a :: l, h => by
    have ha := h a (List.mem_cons_self a l)
    simp only [List.takeWhile_cons, ha, if_true]
    exact congrArg (a :: ·) (takeWhile_of_all fun x hx => h x (List.mem_cons_of_mem a hx))

theorem dropWhile_of_all {α : Type} {p : α → Bool} :
    ∀ {l : List α}, (∀ a ∈ l, p a = true) → l.dropWhile p = []
  | [], _ => rfl
  | a :: l, h => by
    have ha := h a (List.mem_cons_self a l)
    simp only [List.dropWhile_cons, ha, if_true]
    exact dropWhile_of_all fun x hx => h x (List.mem_cons_of_mem a hx)

theorem takeWhile_append_stop {α : Type} (p : α → Bool) {b : α} {l2 : List α}
    (hb : p b = false) :
    ∀ {l1 : List α}, (∀ a ∈ l1, p a = true) → (l1 ++ b :: l2).takeWhile p = l1
  | [], _ => by simp [List.takeWhile_cons, hb]
  | a :: l1, h => by
    have ha := h a (List.mem_cons_self a l1)
    simp only [List.cons_append, List.takeWhile_cons, ha, if_true]
    exact congrArg (a :: ·)
      (takeWhile_append_stop p hb fun x hx => h x (List.mem_cons_of_mem a hx))

theorem dropWhile_append_stop {α : Type} (p : α → Bool) {b : α} {l2 : List α}
    (hb : p b = false) :
    ∀ {l1 : List α}, (∀ a ∈ l1, p a = true) → (l1 ++ b :: l2).dropWhile p = b :: l2
  | [], _ => by simp [List.dropWhile_cons, hb]
  | a :: l1, h => by
    have ha := h a (List.mem_cons_self a l1)
    simp only [List.cons_append, List.dropWhile_cons, ha, if_true]
    exact dropWhile_append_stop p hb fun x hx => h x (List.mem_cons_of_mem a hx)

theorem map_digit_inverse :
    ∀ {l : List Nat}, (∀ k ∈ l, k < 10) → (l.map charOfDigit).map digitOfChar = l
  | [], _ => rfl
  | k :: l, h => by
    simp only [List.map_cons]
    rw [digitOfChar_charOfDigit (h k (List.mem_cons_self k l)),
      map_digit_inverse fun x hx => h x (List.mem_cons_of_mem k hx)]

theorem all_digit_chars {l : List Nat} (h : ∀ k ∈ l, k < 10) :
    (l.map charOfDigit).all isDigitCh = true := by
  rw [List.all_eq_true]
  intro c hc
  obtain ⟨k, hk, rfl⟩ := List.mem_map.mp hc
  exact isDigitCh_charOfDigit (h k hk)

theorem all_not_dot {l : List Nat} (h : ∀ k ∈ l, k < 10) :
    ∀ c ∈ l.map charOfDigit, (c != '.') = true := by
  intro c hc
  obtain ⟨k, hk, rfl⟩ := List.mem_map.mp hc
  exact charOfDigit_ne_dot (h k hk)

theorem parseNatDigits_render {l : List Nat} (h : ∀ k ∈ l, k < 10) :
    parseNatDigits (l.reverse.map charOfDigit) = Nat.ofDigits 10 l := by
  unfold parseNatDigits
  rw [← List.map_reverse, ← List.map_reverse, List.reverse_reverse,
    map_digit_inverse h]

/-! ### parseRatBody on rendered digit strings -/

theorem parseRatBody_noDot (neg : Bool) {intD : List Nat}
    (hI : ∀ k ∈ intD, k < 10) (hne : intD ≠ []) :
    parseRatBody neg (intD.reverse.map charOfDigit)
      = some (ratSign neg ((Nat.ofDigits 10 intD : Nat) : Rat)) := by
  have hIrev : ∀ k ∈ intD.reverse, k < 10 := fun k hk => hI k (List.mem_reverse.mp hk)
  have htake : (intD.reverse.map charOfDigit).takeWhile (fun c => c != '.')
      = intD.reverse.map charOfDigit := takeWhile_of_all (all_not_dot hIrev)
  have hdrop : (intD.reverse.map charOfDigit).dropWhile (fun c => c != '.') = [] :=
    dropWhile_of_all (all_not_dot hIrev)
  have hnonempty : (intD.reverse.map charOfDigit).isEmpty = false := by
    cases h : intD.reverse.map charOfDigit with
    | nil => exact absurd (by simpa using congrArg List.length h) hne
    | cons a l => rfl
  unfold parseRatBody
  rw [htake, hdrop]
  simp only [List.tail_nil, all_digit_chars hIrev, List.all_nil, hnonempty,
    Bool.and_true, Bool.true_and, Bool.and_false, Bool.not_false, if_true]
  rw [parseNatDigits_render hI]
  norm_num [parseNatDigits, Nat.ofDigits_nil]

theorem parseRatBody_dot (neg : Bool) {intD fracD : List Nat}
    (hI : ∀ k ∈ intD, k < 10) (hF : ∀ k ∈ fracD, k < 10) (hne : intD ≠ []) :
    parseRatBody neg
        ((intD.reverse.map charOfDigit) ++ '.' :: (fracD.reverse.map charOfDigit))
      = some (ratSign neg (((Nat.ofDigits 10 intD : Nat) : Rat)
          + ((Nat.ofDigits 10 fracD : Nat) : Rat) / (10 : Rat) ^ fracD.length)) := by
  have hIrev : ∀ k ∈ intD.reverse, k < 10 := fun k hk => hI k (List.mem_reverse.mp hk)
  have hFrev : ∀ k ∈ fracD.reverse, k < 10 := fun k hk => hF k (List.mem_reverse.mp hk)
  have hdot : (('.' : Char) != '.') = false := by decide
  have htake : ((intD.reverse.map charOfDigit) ++ '.' :: (fracD.reverse.map charOfDigit)).takeWhile
      (fun c => c != '.') = intD.reverse.map charOfDigit :=
    takeWhile_append_stop (fun c => c != '.') hdot (all_not_dot hIrev)
  have hdrop : ((intD.reverse.map charOfDigit) ++ '.' :: (fracD.reverse.map charOfDigit)).dropWhile
      (fun c => c != '.') = '.' :: (fracD.reverse.map charOfDigit) :=
    dropWhile_append_stop (fun c => c != '.') hdot (all_not_dot hIrev)
  have hnonempty : (intD.reverse.map charOfDigit).isEmpty = false := by
    cases h : intD.reverse.map charOfDigit with
    | nil => exact absurd (by simpa using congrArg List.length h) hne
    | cons a l => rfl
  unfold parseRatBody
  rw [htake, hdrop]
  simp only [List.tail_cons, all_digit_chars hIrev, all_digit_chars hFrev, hnonempty,
    Bool.true_and, Bool.and_true, Bool.false_and, Bool.not_false, if_true]
  rw [parseNatDigits_render hI, parseNatDigits_render hF]
  rw [List.length_map, List.length_reverse]

/-! ### Structure of the decimal rendering -/

theorem padded_digit_lt (d : DecNum) : ∀ k ∈ d.padded, k < 10 := by
  intro k hk
  rcases List.mem_append.mp hk with h | h
  · exact natDecDigits_lt _ _ h
  · have := List.eq_of_mem_replicate h
    omega

theorem padded_length (d : DecNum) : d.e < d.padded.length := by
  unfold DecNum.padded
  rw [List.length_append, List.length_replicate]
  omega

theorem ofDigits_padded (d : DecNum) : Nat.ofDigits 10 d.padded = d.m.natAbs := by
  unfold DecNum.padded
  rw [Nat.ofDigits_append, natDecDigits_ofDigits, ofDigits_replicate_zero]
  simp

theorem ofDigits_take_drop (d : DecNum) :
    Nat.ofDigits 10 (d.padded.take d.e) + 10 ^ d.e * Nat.ofDigits 10 (d.padded.drop d.e)
      = d.m.natAbs := by
  have h := ofDigits_padded d
  rw [show d.padded = d.padded.take d.e ++ d.padded.drop d.e from
    (List.take_append_drop _ _).symm] at h
  rw [Nat.ofDigits_append, List.length_take,
    min_eq_left (Nat.le_of_lt (padded_length d))] at h
  exact h

theorem drop_padded_ne_nil (d : DecNum) : d.padded.drop d.e ≠ [] := by
  apply List.length_pos.mp
  rw [List.length_drop]
  have := padded_length d
  omega

/-- `decReprCore` starts with a digit character. -/
theorem decReprCore_head (d : DecNum) :
    ∃ k t, k < 10 ∧ decReprCore d = charOfDigit k :: t := by
  have hne : (d.padded.drop d.e).reverse ≠ [] := by
    apply List.length_pos.mp
    rw [List.length_reverse, List.length_drop]
    have := padded_length d
    omega
  obtain ⟨k, t, hk⟩ := List.exists_cons_of_ne_nil hne
  have hk10 : k < 10 :=
    padded_digit_lt d k
      (List.drop_subset _ _ (List.mem_reverse.mp (hk ▸ List.mem_cons_self k t)))
  by_cases h0 : d.e = 0
  · exact ⟨k, t.map charOfDigit, hk10, by
      unfold decReprCore
      rw [if_pos h0, hk, List.map_cons]⟩
  · exact ⟨k, t.map charOfDigit
        ++ '.' :: ((d.padded.take d.e).reverse.map charOfDigit), hk10, by
      unfold decReprCore
      rw [if_neg h0, hk, List.map_cons, List.cons_append]⟩

/-- `decReprCore` ends with a digit character (stated on the reverse). -/
theorem decReprCore_rev (d : DecNum) :
    ∃ k t, k < 10 ∧ (decReprCore d).reverse = charOfDigit k :: t := by
  by_cases h0 : d.e = 0
  · obtain ⟨k, t, hk⟩ := List.exists_cons_of_ne_nil (drop_padded_ne_nil d)
    have hk10 : k < 10 :=
      padded_digit_lt d k (List.drop_subset _ _ (hk ▸ List.mem_cons_self k t))
    refine ⟨k, t.map charOfDigit, hk10, ?_⟩
    unfold decReprCore
    rw [if_pos h0, List.map_reverse, List.reverse_reverse, hk, List.map_cons]
  · have hFne : d.padded.take d.e ≠ [] := by
      apply List.length_pos.mp
      rw [List.length_take]
      have h1 := padded_length d
      have h2 := Nat.pos_of_ne_zero h0
      omega
    obtain ⟨k, t, hk⟩ := List.exists_cons_of_ne_nil hFne
    have hk10 : k < 10 :=
      padded_digit_lt d k (List.take_subset _ _ (hk ▸ List.mem_cons_self k t))
    refine ⟨k, t.map charOfDigit ++ '.' :: (d.padded.drop d.e).map charOfDigit,
      hk10, ?_⟩
    unfold decReprCore
    rw [if_neg h0, List.reverse_append, List.reverse_cons]
    simp only [List.map_reverse, List.reverse_reverse]
    rw [hk, List.map_cons]
    simp [List.append_assoc]

/-- Parsing the digit characters of a `DecNum` recovers `m.natAbs / 10 ^ e`. -/
theorem parseRatBody_core (neg : Bool) (d : DecNum) :
    parseRatBody neg (decReprCore d)
      = some (ratSign neg ((d.m.natAbs : Rat) / (10 : Rat) ^ d.e)) := by
  have hI : ∀ k ∈ d.padded.drop d.e, k < 10 :=
    fun k hk => padded_digit_lt d k (List.drop_subset _ _ hk)
  have hF : ∀ k ∈ d.padded.take d.e, k < 10 :=
    fun k hk => padded_digit_lt d k (List.take_subset _ _ hk)
  have hIne := drop_padded_ne_nil d
  by_cases h0 : d.e = 0
  · unfold decReprCore
    rw [if_pos h0, parseRatBody_noDot neg hI hIne]
    have h := ofDigits_take_drop d
    rw [h0] at h ⊢
    simp only [List.take_zero, Nat.ofDigits_nil, pow_zero, one_mul, zero_add] at h
    rw [h]
    norm_num
  · unfold decReprCore
    rw [if_neg h0, parseRatBody_dot neg hI hF hIne]
    have hlf : (d.padded.take d.e).length = d.e := by
      rw [List.length_take]
      exact min_eq_left (Nat.le_of_lt (padded_length d))
    rw [hlf]
    congr 1
    unfold ratSign
    have h : ((Nat.ofDigits 10 (d.padded.take d.e) : Nat) : Rat)
        + (10 : Rat) ^ d.e * ((Nat.ofDigits 10 (d.padded.drop d.e) : Nat) : Rat)
          = (d.m.natAbs : Rat) := by
      exact_mod_cast congrArg (fun n : Nat => (n : Rat)) (ofDigits_take_drop d)
    have hpow : (10 : Rat) ^ d.e ≠ 0 := by positivity
    by_cases hneg : neg = true
    · rw [if_pos hneg, if_pos hneg]
      field_simp
      linarith
    · rw [if_neg hneg, if_neg hneg]
      field_simp
      linarith

/-- Stripping the appended unit with `rstrip` recovers the original string,
provided the string ends in a character outside the cut set. -/
theorem rstrip_trailing_degC {l : List Char} {c0 : Char} {t : List Char}
    (hl : l.reverse = c0 :: t)
    (hc : (("°C" : String).data.contains c0) = false) :
    pyRstrip (String.mk l ++ "°C") "°C" = String.mk l := by
  have hdata : (String.mk l ++ "°C").data = l ++ ['°', 'C'] := rfl
  unfold pyRstrip
  rw [hdata, List.reverse_append, hl]
  have hrev2 : (("°C" : String).data).reverse = ['C', '°'] := rfl
  rw [hrev2]
  have h1 : (('C' :: '°' :: c0 :: t).dropWhile
      (fun c => ("°C" : String).data.contains c)) = c0 :: t := by
    rw [List.dropWhile_cons, if_pos (by decide), List.dropWhile_cons,
      if_pos (by decide), List.dropWhile_cons, if_neg (by simpa using hc)]
  rw [show (['C', '°'] : List Char) ++ c0 :: t = 'C' :: '°' :: c0 :: t from rfl, h1]
  rw [← hl, List.reverse_reverse]

/-- Round trip: rendering a number, appending the Celsius unit, stripping it
with `rstrip` and parsing with `float()` recovers the exact value.  This is
what `process_weather_forecast` does to the current air temperature. -/
theorem parse_rstrip_repr (d : DecNum) :
    parseRat (pyRstrip (decRepr d ++ "°C") "°C") = some d.val := by
  obtain ⟨k, t, hk10, hrev⟩ := decReprCore_rev d
  obtain ⟨k2, t2, hk210, hhead⟩ := decReprCore_head d
  by_cases hm : d.m < 0
  · have hreprEq : decRepr d = String.mk ('-' :: decReprCore d) := by
      unfold decRepr
      rw [if_pos hm]
    have hrev' : ('-' :: decReprCore d).reverse = charOfDigit k :: (t ++ ['-']) := by
      rw [List.reverse_cons, hrev, List.cons_append]
    rw [hreprEq, rstrip_trailing_degC hrev' (charOfDigit_not_deg_c hk10)]
    have hif : ((String.mk ('-' :: decReprCore d)).data.head? = some '-') := rfl
    unfold parseRat
    rw [if_pos hif]
    show parseRatBody true (decReprCore d) = some d.val
    rw [parseRatBody_core true d]
    unfold ratSign DecNum.val
    rw [if_pos rfl]
    congr 1
    have habs : ((d.m.natAbs : Nat) : Rat) = -(d.m : Rat) := by
      rw [Int.cast_natAbs, abs_of_neg hm, Int.cast_neg]
    rw [habs]
    ring
  · have hreprEq : decRepr d = String.mk (decReprCore d) := by
      unfold decRepr
      rw [if_neg hm]
    rw [hreprEq, rstrip_trailing_degC hrev (charOfDigit_not_deg_c hk10)]
    have hif : ¬ ((String.mk (decReprCore d)).data.head? = some '-') := by
      show ¬ ((decReprCore d).head? = some '-')
      rw [hhead]
      simp only [List.head?_cons, Option.some.injEq]
      exact charOfDigit_head_ne_dash hk210
    unfold parseRat
    rw [if_neg hif]
    show parseRatBody false (decReprCore d) = some d.val
    rw [parseRatBody_core false d]
    unfold ratSign DecNum.val
    rw [if_neg (by simp)]
    congr 1
    have habs : ((d.m.natAbs : Nat) : Rat) = (d.m : Rat) := by
      rw [Int.cast_natAbs, abs_of_nonneg (Int.not_lt.mp hm)]
    rw [habs]

/-! ### Display rounding (`%.0f`)

CPython's `f"{x:.0f}"` rounds to the nearest integer, ties to even, and
keeps the sign of the float (so `-0.3` renders as `"-0"`). -/

/-- Round to the nearest integer, ties to even — the rounding `%.0f`
performs. -/
def roundHalfEven (q : Rat) : Int :=
  if q - ⌊q⌋ < 1 / 2 then ⌊q⌋
  else if 1 / 2 < q - ⌊q⌋ then ⌊q⌋ + 1
  else if ⌊q⌋ % 2 = 0 then ⌊q⌋ else ⌊q⌋ + 1

/-- Embedding of the f-string format spec `.0f`: decimal rendering of the
rounded value, keeping a `-` sign on negative values rounded to zero. -/
def fmt0f (q : Rat) : String :=
  if q < 0 ∧ roundHalfEven q = 0 then "-0"
  else decRepr { m := roundHalfEven q, e := 0 }

/-! ### Substring search (for stating "the headline contains ...") -/

/-- Does `pat` occur at the start of `l`? -/
def leadsWith : List Char → List Char → Bool
  | [], _ => true
  | _ :: _, [] => false
  | a :: as, b :: bs => a == b && leadsWith as bs

/-- Does `pat` occur as a contiguous sublist of `l`? -/
def hasSubList (pat : List Char) : List Char → Bool
  | [] => leadsWith pat []
  | l@(_ :: rest) => leadsWith pat l || hasSubList pat rest

/-- Does the string `pat` occur as a substring of `s`? -/
def strHasSub (s pat : String) : Bool := hasSubList pat.data s.data

/-! ### Data model of the upstream payloads

The geolocation response (`get_location`) and the forecast response
(`raw_data`, the `properties.timeseries` array of the met.no payload).
Fields the code reads unconditionally are plain fields; the three
short-range summary blocks, which claim C7 is about, may be absent. -/

/-- Projection of the geolocation JSON: exactly the five fields
`get_location` keeps. -/
structure Location where
  city : String
  country : String
  lat : Rat
  lon : Rat
  timezone : String

/-- The `data.instant.details` block of a forecast entry: the six numeric
fields the code reads. -/
structure Details where
  air_pressure_at_sea_level : DecNum
  air_temperature : DecNum
  cloud_area_fraction : DecNum
  relative_humidity : DecNum
  wind_from_direction : DecNum
  wind_speed : DecNum

/-- The `data.instant` block. -/
structure Instant where
  details : Details

/-- A `next_N_hours` summary block. -/
structure Summary where
  symbol_code : String

/-- The `data` block of a forecast entry.  The summary blocks are optional:
near the end of the series the upstream omits them (`none` models a missing
key). -/
structure EntryData where
  instant : Instant
  next_1_hours : Option Summary
  next_6_hours : Option Summary
  next_12_hours : Option Summary

/-- One element of the `properties.timeseries` array.  `time` is the UTC
instant (seconds) denoted by the entry's ISO-8601 `...Z` timestamp. -/
structure TsEntry where
  time : Int
  data : EntryData

/-- Python exceptions the embedded code can raise.  A missing JSON field
(Python `KeyError`) is the spec's `MalformedResponse`; `typeError` is the
`TypeError` raised by `tz_convert` on a timezone-naive index; `valueError`
is raised by `float()`; `indexError` by indexing an empty list. -/
inductive AppError where
  | malformedResponse
  | typeError
  | valueError
  | indexError
deriving DecidableEq

/-! ### Forecast transform functions (`utils.py`) -/

/-- Embedding of `convert_to_fahr` (utils.py lines 232-245):
`9 / 5 * temp_C + 32`. -/
def convert_to_fahr (temp_C : Rat) : Rat := 9 / 5 * temp_C + 32

/-- Embedding of `get_current_weather` (utils.py lines 101-121): format the
six instantaneous metrics with their unit suffixes, in the dict's insertion
order.  Field presence is enforced by the `Details` type. -/
def get_current_weather (current_weather : Details) : List (String × String) :=
  [("Air pressure", decRepr current_weather.air_pressure_at_sea_level ++ "hPa"),
   ("Air temperature", decRepr current_weather.air_temperature ++ "°C"),
   ("Cloud area fraction", decRepr current_weather.cloud_area_fraction ++ "%"),
   ("Relative humidity", decRepr current_weather.relative_humidity ++ "%"),
   ("Wind direction (from)", decRepr current_weather.wind_from_direction ++ "°"),
   ("Wind speed", decRepr current_weather.wind_speed ++ "m/s")]

/-- Embedding of `get_weather_icons` (utils.py lines 124-141): the dict
comprehension over `[1, 6, 12]`; a missing `next_N_hours` key raises
(Python `KeyError`, the spec's `MalformedResponse`). -/
def get_weather_icons (icon_info : EntryData) :
    Except AppError (List (String × String)) :=
  match icon_info.next_1_hours, icon_info.next_6_hours, icon_info.next_12_hours with
  | some s1, some s6, some s12 =>
    .ok [("1h", s1.symbol_code), ("6h", s6.symbol_code), ("12h", s12.symbol_code)]
  | _, _, _ => .error .malformedResponse

/-- A pandas `DatetimeIndex`: the underlying UTC instants plus the timezone
the index is localized to (`none` = timezone-naive). -/
structure DtIndex where
  instants : List Int
  tz : Option String
deriving DecidableEq

/-- Embedding of `pd.to_datetime` on the list of upstream `...Z` timestamp
strings: a non-empty list of UTC-marked timestamps yields a UTC-aware index;
the empty list yields a timezone-naive empty index. -/
def pdToDatetime (times : List Int) : DtIndex :=
  { instants := times, tz := if times.isEmpty then none else some "UTC" }

/-- Embedding of `DatetimeIndex.tz_convert`: keeps the instants and relabels
the timezone; raises `TypeError` on a timezone-naive index. -/
def tzConvert (idx : DtIndex) (timezone : String) : Except AppError DtIndex :=
  match idx.tz with
  | none => .error .typeError
  | some _ => .ok { instants := idx.instants, tz := some timezone }

/-- A pandas `Series` of air temperatures indexed by datetimes. -/
structure PdSeries where
  index : DtIndex
  values : List Rat
deriving DecidableEq

/-- Embedding of `get_temperature_time_series` (utils.py lines 144-169):
pair each entry's timestamp with its instantaneous air temperature, then
convert the index to the supplied timezone. -/
def get_temperature_time_series (weather_info : List TsEntry) (timezone : String) :
    Except AppError PdSeries :=
  match tzConvert (pdToDatetime (weather_info.map (·.time))) timezone with
  | .error err => .error err
  | .ok idx =>
    .ok { index := idx,
          values := weather_info.map (·.data.instant.details.air_temperature.val) }

/-! ### Chart data (`plot_forecast`)

The two figures are HTML renderings (external charting library); we embed
the data that is plotted.  `resample("1D")` on a timezone-aware index
buckets at local midnight; real timezones have a (possibly varying) UTC
offset, which we model as a fixed offset in seconds supplied alongside the
series (0 for UTC/GMT, the timezone the claims exercise). -/

/-- Calendar day (days since the epoch, in the timezone with the given UTC
offset in seconds) containing the UTC instant `t`. -/
def dayOf (offset t : Int) : Int := (t + offset).fdiv 86400

/-- Temperatures of the entries falling on calendar day `day`. -/
def bucketTemps (offset : Int) (pairs : List (Int × Rat)) (day : Int) : List Rat :=
  (pairs.filter (fun p => dayOf offset p.1 == day)).map (·.2)

/-- pandas `agg(["max", "min"])` on one bucket: `none` models the NaN row an
empty bucket produces. -/
def mmAgg : List Rat → Option (Rat × Rat)
  | [] => none
  | a :: t => some (t.foldl max a, t.foldl min a)

/-- Embedding of `temp_data.resample("1D").agg(["max", "min"])` (utils.py
line 207) for an index in ascending order (the upstream guarantee): one row
per calendar day from the first entry's day to the last entry's day, each
holding the max and min of that day's temperatures. -/
def resampleDayAgg (offset : Int) (pairs : List (Int × Rat)) :
    List (Int × Option (Rat × Rat)) :=
  match pairs with
  | [] => []
  | p0 :: rest =>
    let d0 := dayOf offset p0.1
    let dN := dayOf offset (rest.getLastD p0).1
    (List.range (dN - d0 + 1).toNat).map
      (fun i => (d0 + (i : Int), mmAgg (bucketTemps offset (p0 :: rest) (d0 + (i : Int)))))

/-- Embedding of `plot_forecast` (utils.py lines 172-229) at the level of
the plotted data: the 24-hour line chart plots the first 24 entries, the
10-day bar chart plots the daily max/min aggregation.  HTML rendering is
external. -/
def plot_forecast (temp_data : PdSeries) (offset : Int) :
    List (Int × Rat) × List (Int × Option (Rat × Rat)) :=
  ((temp_data.index.instants.zip temp_data.values).take 24,
   resampleDayAgg offset (temp_data.index.instants.zip temp_data.values))

/-! ### Assembling the result (`process_weather_forecast`) -/

/-- Python dict lookup on a string-keyed association list. -/
def lookupStr : List (String × String) → String → Option String
  | [], _ => none
  | (k, v) :: t, key => if k = key then some v else lookupStr t key

/-- The value of `get_weather_info` (utils.py lines 71-98): current
conditions, icons and the temperature series, computed from the
`properties.timeseries` array (`raw_data`) once the two HTTP responses are
in hand. -/
structure WeatherInfo where
  current_weather : List (String × String)
  weather_icons : List (String × String)
  temp_time_series : PdSeries

/-- Embedding of `get_weather_info` (utils.py lines 71-98) downstream of the
HTTP fetch: `raw_data[0]` raises `IndexError` on an empty timeseries; the
three fields are computed in the dict-literal evaluation order. -/
def get_weather_info (raw_data : List TsEntry) (timezone : String) :
    Except AppError WeatherInfo :=
  match raw_data with
  | [] => .error .indexError
  | e0 :: rest =>
    match get_weather_icons e0.data,
        get_temperature_time_series (e0 :: rest) timezone with
    | .ok icons, .ok series =>
      .ok { current_weather := get_current_weather e0.data.instant.details,
            weather_icons := icons,
            temp_time_series := series }
    | .error err, _ => .error err
    | .ok _, .error err => .error err

/-- The dict returned by `process_weather_forecast`.  `graphs` holds the
plotted data of the two figures. -/
structure ForecastResult where
  graphs : List (Int × Rat) × List (Int × Option (Rat × Rat))
  headline : String
  ip_address : String
  data : WeatherInfo

/-- Embedding of `process_weather_forecast` (utils.py lines 13-43)
downstream of the two HTTP fetches: `location` is the geolocation response,
`raw_data` the forecast timeseries, `tzOffset` the fixed UTC offset (in
seconds) of `location.timezone` used by the day-bucketing.  The current
Celsius value is re-parsed from the formatted string
(`float(... .rstrip("°C"))`), converted with `convert_to_fahr`, and both are
rendered with `.0f` into the headline. -/
def process_weather_forecast (location : Location) (raw_data : List TsEntry)
    (tzOffset : Int) (ip_address : String) : Except AppError ForecastResult :=
  match get_weather_info raw_data location.timezone with
  | .error err => .error err
  | .ok weather_info =>
    match lookupStr weather_info.current_weather "Air temperature" with
    | none => .error .malformedResponse
    | some tempStr =>
      match parseRat (pyRstrip tempStr "°C") with
      | none => .error .valueError
      | some temp_C =>
        .ok { graphs := plot_forecast weather_info.temp_time_series tzOffset,
              headline := "It's " ++ fmt0f temp_C ++ "°C ("
                ++ fmt0f (convert_to_fahr temp_C) ++ "°F) in "
                ++ location.city ++ ", " ++ location.country ++ " right now.",
              ip_address := ip_address,
              data := weather_info }

/-- The headline of a pipeline result, when it produced one. -/
def headlineOf (x : Except AppError ForecastResult) : Option String :=
  match x with
  | .ok r => some r.headline
  | .error _ => none

/-! ### IP resolution (`__init__.py`) -/

/-- Embedding of the address-selection branch of `main` (__init__.py lines
10-15): `deploy` is the `DEPLOY` environment variable (`none` = unset),
`xForwardedFor` the `X-Forwarded-For` header value, `externalIPAddress`
the probe service's response body. -/
def resolveCallerAddress (deploy : Option String) (xForwardedFor : String)
    (externalIPAddress : String) : String :=
  if deploy = some "heroku" then xForwardedFor else externalIPAddress

/-- The spec's words for 4.1: "return the first address from the
proxy-forwarded header" — the comma-separated list's first element,
whitespace-stripped.  Stated only to compare against what the code does. -/
def specFirstForwardedAddress (header : String) : String :=
  String.mk ((((header.data.takeWhile (fun c => c != ',')).dropWhile
    (fun c => c == ' ')).reverse.dropWhile (fun c => c == ' ')).reverse)

/-! ### Concrete payload fixtures used by the witnesses and counterexamples -/

/-- A summary block used wherever one must be present. -/
def sampleSummary : Summary := ⟨"clearsky_day"⟩

/-- Instantaneous details with `air_temperature = 14.6` (the value the spec's
headline fixture uses). -/
def sampleDetails : Details :=
  ⟨⟨10132, 1⟩, ⟨146, 1⟩, ⟨938, 1⟩, ⟨825, 1⟩, ⟨270, 0⟩, ⟨3, 0⟩⟩

/-- A forecast entry carrying `sampleDetails` and all three summary blocks. -/
def sampleEntry : TsEntry :=
  ⟨1700000000, ⟨⟨sampleDetails⟩, some sampleSummary, some sampleSummary, some sampleSummary⟩⟩

/-- A geolocation response fixture. -/
def sampleLocation : Location := ⟨"Nairobi", "Kenya", -13 / 10, 368 / 10, "Africa/Nairobi"⟩

/-- The current-conditions fixture of spec section 8: the six fields as the
integers 1013, 15, 50, 80, 270, 3. -/
def currentFixture : Details :=
  ⟨⟨1013, 0⟩, ⟨15, 0⟩, ⟨50, 0⟩, ⟨80, 0⟩, ⟨270, 0⟩, ⟨3, 0⟩⟩

/-- An entry data block with all three summary windows present. -/
def iconsFull : EntryData :=
  ⟨⟨currentFixture⟩, some ⟨"clearsky_day"⟩, some ⟨"cloudy"⟩, some ⟨"rain"⟩⟩

/-- An entry data block missing the `next_12_hours` window. -/
def iconsMissing12 : EntryData :=
  ⟨⟨currentFixture⟩, some ⟨"clearsky_day"⟩, some ⟨"cloudy"⟩, none⟩

/-! ### Headline evaluation helpers -/

/-- The headline produced by the pipeline, in terms of the raw current air
temperature: the Celsius round trip (format, `rstrip`, `float()`) recovers
the raw value, which is then rounded for display; the Fahrenheit value is
converted from the raw (unrounded) value and rounded for display. -/
theorem headline_formula_aux (loc : Location) (e0 : TsEntry)
    (rest : List TsEntry) (tzOffset : Int) (ip : String) (s1 s6 s12 : Summary)
    (h1 : e0.data.next_1_hours = some s1) (h6 : e0.data.next_6_hours = some s6)
    (h12 : e0.data.next_12_hours = some s12) :
    headlineOf (process_weather_forecast loc (e0 :: rest) tzOffset ip)
      = some ("It's " ++ fmt0f e0.data.instant.details.air_temperature.val
        ++ "°C (" ++ fmt0f (9 / 5 * e0.data.instant.details.air_temperature.val + 32)
        ++ "°F) in " ++ loc.city ++ ", " ++ loc.country ++ " right now.") := by
  have hicons : get_weather_icons e0.data
      = .ok [("1h", s1.symbol_code), ("6h", s6.symbol_code), ("12h", s12.symbol_code)] := by
    simp only [get_weather_icons, h1, h6, h12]
  have hseries : get_temperature_time_series (e0 :: rest) loc.timezone
      = .ok ⟨⟨(e0 :: rest).map (·.time), some loc.timezone⟩,
          (e0 :: rest).map (·.data.instant.details.air_temperature.val)⟩ := rfl
  have hlookup : lookupStr (get_current_weather e0.data.instant.details)
      "Air temperature"
      = some (decRepr e0.data.instant.details.air_temperature ++ "°C") := rfl
  simp only [process_weather_forecast, get_weather_info, hicons, hseries,
    hlookup, parse_rstrip_repr, headlineOf, convert_to_fahr]

theorem roundHalfEven_sample_celsius : roundHalfEven (73 / 5 : Rat) = 15 := by
  unfold roundHalfEven
  rw [show ⌊(73 / 5 : Rat)⌋ = 14 from by norm_num]
  rw [if_neg (by norm_num), if_pos (by norm_num)]
  decide

theorem roundHalfEven_sample_fahrenheit : roundHalfEven (1457 / 25 : Rat) = 58 := by
  unfold roundHalfEven
  rw [show ⌊(1457 / 25 : Rat)⌋ = 58 from by norm_num]
  rw [if_pos (by norm_num)]

theorem fmt0f_sample_celsius : fmt0f (73 / 5 : Rat) = "15" := by
  unfold fmt0f
  rw [if_neg (by rw [roundHalfEven_sample_celsius]; norm_num),
    roundHalfEven_sample_celsius]
  rfl

theorem fmt0f_sample_fahrenheit : fmt0f (9 / 5 * (73 / 5 : Rat) + 32) = "58" := by
  rw [show 9 / 5 * (73 / 5 : Rat) + 32 = 1457 / 25 from by norm_num]
  unfold fmt0f
  rw [if_neg (by rw [roundHalfEven_sample_fahrenheit]; norm_num),
    roundHalfEven_sample_fahrenheit]
  rfl

/-- The headline formula evaluated at the 14.6 °C sample payload. -/
theorem sample_headline_string :
    "It's " ++ fmt0f sampleEntry.data.instant.details.air_temperature.val
      ++ "°C (" ++ fmt0f (9 / 5 * sampleEntry.data.instant.details.air_temperature.val + 32)
      ++ "°F) in " ++ sampleLocation.city ++ ", " ++ sampleLocation.country
      ++ " right now."
    = "It's 15°C (58°F) in Nairobi, Kenya right now." := by
  have hval : sampleEntry.data.instant.details.air_temperature.val = 73 / 5 := by
    norm_num [sampleEntry, sampleDetails, DecNum.val]
  rw [hval, fmt0f_sample_celsius, fmt0f_sample_fahrenheit]
  rfl

/-! ## Claims -/

/-- C3: for every Celsius input `c`, `convert_to_fahr` returns exactly
`9/5 * c + 32` (equivalently `1.8 * c + 32`) with no rounding; in particular
`0 ↦ 32`, `100 ↦ 212` and `-40 ↦ -40`. -/
theorem claim3_convert_to_fahr_exact :
    (∀ c : Rat, convert_to_fahr c = 9 / 5 * c + 32)
    ∧ (∀ c : Rat, convert_to_fahr c = 1.8 * c + 32)
    ∧ convert_to_fahr 0 = 32 ∧ convert_to_fahr 100 = 212
    ∧ convert_to_fahr (-40) = -40 := by
  refine ⟨fun c => rfl, fun c => ?_, by norm_num [convert_to_fahr],
    by norm_num [convert_to_fahr], by norm_num [convert_to_fahr]⟩
  norm_num [convert_to_fahr]

/-- C5 counterexample: in proxy mode the code returns the whole
`X-Forwarded-For` header, so on a header listing two comma-separated
addresses it does not return the first address, refuting the claim as
stated. -/
theorem claim5_counterexample :
    resolveCallerAddress (some "heroku") "203.0.113.7, 198.51.100.9" "192.0.2.1"
      ≠ specFirstForwardedAddress "203.0.113.7, 198.51.100.9" := by
  decide

/-- C5 (amended): in trusted-proxy deployment mode the resolver returns the
proxy-forwarded header value verbatim — the entire comma-separated list when
several addresses are present, not the first address — without validation. -/
theorem claim5_header_verbatim (header probe : String) :
    resolveCallerAddress (some "heroku") header probe = header := rfl

/-- C6: `get_current_weather` on the fixture block (1013, 15, 50, 80, 270, 3)
returns exactly the six formatted strings, and on every details block each
field is formatted with its unit suffix (hPa, °C, %, %, °, m/s). -/
theorem claim6_extract_current :
    get_current_weather currentFixture
      = [("Air pressure", "1013hPa"), ("Air temperature", "15°C"),
         ("Cloud area fraction", "50%"), ("Relative humidity", "80%"),
         ("Wind direction (from)", "270°"), ("Wind speed", "3m/s")]
    ∧ ∀ dts : Details, get_current_weather dts
      = [("Air pressure", decRepr dts.air_pressure_at_sea_level ++ "hPa"),
         ("Air temperature", decRepr dts.air_temperature ++ "°C"),
         ("Cloud area fraction", decRepr dts.cloud_area_fraction ++ "%"),
         ("Relative humidity", decRepr dts.relative_humidity ++ "%"),
         ("Wind direction (from)", decRepr dts.wind_from_direction ++ "°"),
         ("Wind speed", decRepr dts.wind_speed ++ "m/s")] :=
  ⟨rfl, fun _ => rfl⟩

/-- C7: `get_weather_icons` fails with the missing-key error
(`MalformedResponse`) whenever one of the 1-, 6- or 12-hour windows is
absent, and returns the symbol codes for exactly the keys "1h", "6h", "12h"
when all three are present. -/
theorem claim7_extract_icons (d : EntryData) :
    ((d.next_1_hours = none ∨ d.next_6_hours = none ∨ d.next_12_hours = none) →
      get_weather_icons d = .error .malformedResponse)
    ∧ (∀ s1 s6 s12, d.next_1_hours = some s1 → d.next_6_hours = some s6 →
        d.next_12_hours = some s12 →
        get_weather_icons d = .ok [("1h", s1.symbol_code), ("6h", s6.symbol_code),
          ("12h", s12.symbol_code)]) := by
  constructor
  · intro h
    cases h1 : d.next_1_hours <;> cases h6 : d.next_6_hours <;>
        cases h12 : d.next_12_hours <;>
      (simp only [get_weather_icons, h1, h6, h12];
       try (rcases h with h | h | h <;> simp_all))
  · intro s1 s6 s12 h1 h6 h12
    simp only [get_weather_icons, h1, h6, h12]

/-- C7 witness: on a concrete block missing `next_12_hours` the function
fails, and on a concrete complete block it returns the three codes. -/
theorem claim7_extract_icons_witness :
    get_weather_icons iconsMissing12 = .error .malformedResponse
    ∧ get_weather_icons iconsFull
      = .ok [("1h", "clearsky_day"), ("6h", "cloudy"), ("12h", "rain")] :=
  ⟨(claim7_extract_icons iconsMissing12).1 (Or.inr (Or.inr rfl)),
   (claim7_extract_icons iconsFull).2 _ _ _ rfl rfl rfl⟩

/-- C9: formatting a raw temperature as `"{x}°C"`, stripping the trailing
`"°C"` with `rstrip` and parsing with `float()` returns exactly the raw
value, for every decimal number — so the Celsius value the headline uses
equals the raw `air_temperature` of the first entry. -/
theorem claim9_format_parse_roundtrip (d : DecNum) :
    parseRat (pyRstrip (decRepr d ++ "°C") "°C") = some d.val :=
  parse_rstrip_repr d

/-- C10 counterexample: on the empty entry list the series builder raises
(`tz_convert` rejects the timezone-naive empty index produced by
`pd.to_datetime([])`) instead of returning an empty series, refuting the
claim as stated. -/
theorem claim10_counterexample :
    ¬ ∃ s, get_temperature_time_series ([] : List TsEntry) "GMT" = .ok s
        ∧ s.values = [] := by
  rintro ⟨s, hs, -⟩
  exact Except.noConfusion hs

/-- C10 (amended): for the empty list of raw forecast entries, building the
temperature series fails with the `TypeError` of `tz_convert` on a
timezone-naive index; it does not return an empty series. -/
theorem claim10_empty_errors (timezone : String) :
    get_temperature_time_series ([] : List TsEntry) timezone
      = .error .typeError := rfl

/-- C4 counterexample: on the empty entry list the series builder returns no
series at all (it raises), refuting the claim's universal quantification
over every list of raw forecast entries. -/
theorem claim4_counterexample :
    ¬ ∃ s, get_temperature_time_series ([] : List TsEntry) "GMT" = .ok s := by
  rintro ⟨s, hs⟩
  exact Except.noConfusion hs

/-- C4 (amended): for every non-empty list of raw forecast entries and every
timezone, the series has length equal to the entry count, its values are the
entries' instantaneous air temperatures in input order, and its timestamps
are the entries' timestamps in input order converted to (relabelled with)
the supplied timezone — never re-sorted. -/
theorem claim4_series_builds (entries : List TsEntry) (timezone : String)
    (h : entries ≠ []) :
    ∃ s, get_temperature_time_series entries timezone = .ok s
      ∧ s.values.length = entries.length
      ∧ s.index.instants.length = entries.length
      ∧ s.values = entries.map (·.data.instant.details.air_temperature.val)
      ∧ s.index.instants = entries.map (·.time)
      ∧ s.index.tz = some timezone := by
  obtain ⟨e0, rest, rfl⟩ := List.exists_cons_of_ne_nil h
  refine ⟨_, rfl, by simp [get_temperature_time_series, tzConvert, pdToDatetime],
    by simp [get_temperature_time_series, tzConvert, pdToDatetime], rfl, rfl, rfl⟩

/-- C4 witness: the amended statement applied to a concrete one-entry list. -/
theorem claim4_series_builds_witness :
    ∃ s, get_temperature_time_series [sampleEntry] "GMT" = .ok s
      ∧ s.values.length = [sampleEntry].length
      ∧ s.index.instants.length = [sampleEntry].length
      ∧ s.values = [sampleEntry].map (·.data.instant.details.air_temperature.val)
      ∧ s.index.instants = [sampleEntry].map (·.time)
      ∧ s.index.tz = some "GMT" :=
  claim4_series_builds [sampleEntry] "GMT" (List.cons_ne_nil _ _)

/-- C8: day-bucketing a 26-hour hourly series (UTC, starting at midnight)
yields exactly two calendar-day buckets: the first reduces the first 24
hours to their max and min, the second is computed from only the 2 available
hours — no padding or interpolation. -/
theorem claim8_day_buckets (temps : Nat → Rat) :
    resampleDayAgg 0 ((List.range 26).map (fun i : Nat => (3600 * (i : Int), temps i)))
      = [(0, mmAgg ((List.range 24).map temps)),
         (1, mmAgg [temps 24, temps 25])] := by
  rfl

/-- C2: for every payload, the headline is exactly
`It's C°C (F°F) in city, country right now.` where `C` renders the raw
current Celsius value rounded to the nearest integer and `F` renders
`9/5 * c + 32` (computed from the raw value, not from the rounded Celsius)
rounded to the nearest integer. -/
theorem claim2_headline_formula (loc : Location) (e0 : TsEntry)
    (rest : List TsEntry) (tzOffset : Int) (ip : String) (s1 s6 s12 : Summary)
    (h1 : e0.data.next_1_hours = some s1) (h6 : e0.data.next_6_hours = some s6)
    (h12 : e0.data.next_12_hours = some s12) :
    headlineOf (process_weather_forecast loc (e0 :: rest) tzOffset ip)
      = some ("It's " ++ fmt0f e0.data.instant.details.air_temperature.val
        ++ "°C (" ++ fmt0f (9 / 5 * e0.data.instant.details.air_temperature.val + 32)
        ++ "°F) in " ++ loc.city ++ ", " ++ loc.country ++ " right now.") :=
  headline_formula_aux loc e0 rest tzOffset ip s1 s6 s12 h1 h6 h12

/-- C2 witness: the formula theorem applied to the concrete 14.6 °C payload,
whose headline evaluates to the literal string. -/
theorem claim2_headline_formula_witness :
    headlineOf (process_weather_forecast sampleLocation [sampleEntry] 0 "1.2.3.4")
      = some "It's 15°C (58°F) in Nairobi, Kenya right now." := by
  rw [claim2_headline_formula sampleLocation sampleEntry [] 0 "1.2.3.4"
    sampleSummary sampleSummary sampleSummary rfl rfl rfl]
  exact congrArg some sample_headline_string

/-- C1 counterexample: on the 14.6 °C payload the generated headline is
`It's 15°C (58°F) ...` — it does not contain `59°F` (58.28 rounds to 58),
refuting the claim as stated. -/
theorem claim1_counterexample :
    ¬ ∃ h, headlineOf (process_weather_forecast sampleLocation [sampleEntry] 0 "1.2.3.4")
        = some h ∧ strHasSub h "15°C" = true ∧ strHasSub h "59°F" = true := by
  rintro ⟨h, hh, -, h59⟩
  have hval : headlineOf (process_weather_forecast sampleLocation [sampleEntry] 0 "1.2.3.4")
      = some "It's 15°C (58°F) in Nairobi, Kenya right now." := by
    rw [headline_formula_aux sampleLocation sampleEntry [] 0 "1.2.3.4"
      sampleSummary sampleSummary sampleSummary rfl rfl rfl]
    exact congrArg some sample_headline_string
  rw [hval] at hh
  cases hh
  exact absurd h59 (by decide)

/-- C1 (amended): for a current air temperature of 14.6 °C the headline
contains the Celsius value rendered as `15°C` and the Fahrenheit value
rendered as `58°F` (each rounded independently from the raw value:
14.6 → 15, and 9/5 · 14.6 + 32 = 58.28 → 58). -/
theorem claim1_amended_headline_contains :
    ∃ h, headlineOf (process_weather_forecast sampleLocation [sampleEntry] 0 "1.2.3.4")
        = some h ∧ strHasSub h "15°C" = true ∧ strHasSub h "58°F" = true := by
  refine ⟨"It's 15°C (58°F) in Nairobi, Kenya right now.", ?_, by decide, by decide⟩
  rw [headline_formula_aux sampleLocation sampleEntry [] 0 "1.2.3.4"
    sampleSummary sampleSummary sampleSummary rfl rfl rfl]
  exact congrArg some sample_headline_string

end WeatherApp
